import Mathlib

/-!
A shallow embedding of the UniTAB training/evaluation orchestrator
(`main.py`): configuration state, dataset-assembly cycling, checkpoint
resume/load semantics, evaluator dispatch, the per-epoch loop body, the
log-append step and best-metric selection, together with theorems about
their behaviour.
-/

set_option autoImplicit false

namespace UniTAB

/-- Python exceptions relevant to the orchestrator, at the granularity the
embedding needs. -/
inductive PyErr where
  | fileNotFound
  | keyError
  | indexError
  | nameError
  | typeError
  | attributeError
  | assertionError
  | runtimeError (msg : String)
  deriving Repr, DecidableEq

/-- A configuration value that is either a scalar string or a list of
strings, mirroring the JSON-merged `args` fields (`GT_type`,
`refexp_dataset_name`, `flickr_img_path`, `coco_path`) that hold a scalar
in single-task mode and a list in multi-task mode. -/
inductive SV where
  | s (v : String)
  | l (vs : List String)
  deriving Repr, DecidableEq

/-- `type(x) == type([])` test from `main.py` line 346/387. -/
def SV.isList : SV → Bool
  | .s _ => false
  | .l _ => true

/-- Python indexing `x[i]` on a scalar-or-list value: indexing a string
yields its `i`-th character as a one-character string; indexing a list
yields its `i`-th element; out of range raises `IndexError`. -/
def SV.index : SV → Nat → Except PyErr String
  | .s v, i =>
    match v.toList.get? i with
    | some c => .ok (String.mk [c])
    | none => .error .indexError
  | .l vs, i =>
    match vs.get? i with
    | some v => .ok v
    | none => .error .indexError

/-- The slice of the effective configuration (`args`) read or written by
the orchestrator logic under study. -/
structure Args where
  combine_datasets : List String
  combine_datasets_val : List String
  eval : Bool
  GT_type : SV
  refexp_dataset_name : SV
  flickr_img_path : SV
  coco_path : SV
  dataset_config : String
  distributed : Bool
  from_deepspeed : Bool
  do_caption : Bool
  no_detection : Bool
  test : Bool
  output_dir : String
  ema : Bool
  resume : String
  load : String
  frozen_weights : Option String
  optimizer : String
  use_colo_zero : Bool
  start_epoch : Int
  epochs : Int
  eval_skip : Int
  lr_drop : Int
  deriving Repr, DecidableEq

/-- Whether the character list `n` is a leading segment of `h`. -/
def leadsWith : List Char → List Char → Bool
  | _, [] => true
  | [], _ :: _ => false
  | a :: as, b :: bs => a == b && leadsWith as bs

/-- Whether `n` occurs as a contiguous segment of `h`. -/
def hasSub (h n : List Char) : Bool :=
  if leadsWith h n then true
  else
    match h with
    | [] => false
    | _ :: t => hasSub t n

/-- Python's `needle in s` on strings: substring containment. -/
def strIn (needle s : String) : Bool :=
  hasSub s.toList needle.toList

/-- One `build_dataset(name, image_set=..., args=args)` call, recording the
override fields the shared configuration held at the moment of the call
(`main.py` lines 356 and 362-363, 394). -/
structure BuildCall where
  name : String
  GT_type : SV
  refexp_dataset_name : SV
  flickr_img_path : SV
  coco_path : SV
  deriving Repr, DecidableEq

/-- Snapshot the override fields currently in the shared configuration into
the record of a `build_dataset` call. -/
def buildOne (a : Args) (name : String) : BuildCall :=
  { name := name
    GT_type := a.GT_type
    refexp_dataset_name := a.refexp_dataset_name
    flickr_img_path := a.flickr_img_path
    coco_path := a.coco_path }

/-- The body of the multi-task cycling loop (`main.py` lines 350-357),
iterated over the index list `idxs` (the source iterates
`range(len(args.combine_datasets))`).  The caches are the values of the
four override fields taken before the loop (line 347-348); each step
overwrites the shared configuration's override fields with element `ii` of
each cache, then builds the dataset with the mutated configuration.
Returns the recorded build calls in order together with the configuration
as left by the last iteration. -/
def cycleSteps (names : List String) (gttype_cache refexpname_cache flickr_cache coco_cache : SV) :
    List Nat → Args → Except PyErr (List BuildCall × Args)
  | [], a => .ok ([], a)
  | ii :: rest, a => do
    let name ← match names.get? ii with
      | some n => Except.ok n
      | none => Except.error PyErr.indexError
    let gttype ← gttype_cache.index ii
    let refexpname ← refexpname_cache.index ii
    let fl ← flickr_cache.index ii
    let co ← coco_cache.index ii
    let a := { a with GT_type := SV.s gttype, refexp_dataset_name := SV.s refexpname,
                      flickr_img_path := SV.s fl, coco_path := SV.s co }
    let call := buildOne a name
    let (calls, a2) ← cycleSteps names gttype_cache refexpname_cache flickr_cache coco_cache rest a
    .ok (call :: calls, a2)

/-- Training dataset assembly (`main.py` lines 345-364).  When
`refexp_dataset_name` is list-valued (multi-task cycling mode) the four
override fields are cached, the cycling loop builds one dataset per
combined-dataset index, and afterwards the shared configuration's override
fields are reset to the canonical joint values.  Otherwise each dataset is
built directly from the unmodified shared configuration. -/
def trainAssembly (args : Args) : Except PyErr (List BuildCall × Args) :=
  if args.refexp_dataset_name.isList then do
    let (calls, a2) ← cycleSteps args.combine_datasets args.GT_type args.refexp_dataset_name
        args.flickr_img_path args.coco_path
        (List.range args.combine_datasets.length) args
    .ok (calls,
      { a2 with GT_type := SV.s "merged_karpathy",
                refexp_dataset_name := SV.s "refcocog",
                flickr_img_path := SV.s "data/Flickr30k/flickr30k_images_split/train",
                coco_path := SV.s "data/coco" })
  else
    .ok (args.combine_datasets.map (buildOne args), args)

/-- The train-dataset stage (`main.py` lines 343-364): skipped entirely in
evaluation-only mode, otherwise runs `trainAssembly`. -/
def trainStage (args : Args) : Except PyErr (List BuildCall × Args) :=
  if args.eval then .ok ([], args) else trainAssembly args

/-- The build call made at index `ii` of the cycling loop, in terms of the
cached override lists. -/
def buildCallAt (names g r f c : List String) (ii : Nat) : BuildCall :=
  { name := names.getD ii ""
    GT_type := SV.s (g.getD ii "")
    refexp_dataset_name := SV.s (r.getD ii "")
    flickr_img_path := SV.s (f.getD ii "")
    coco_path := SV.s (c.getD ii "") }

/-- Argparse/JSON defaults for the configuration slice, used to build
concrete configurations in the examples below. -/
def baseArgs : Args :=
  { combine_datasets := ["flickr"]
    combine_datasets_val := ["flickr"]
    eval := false
    GT_type := SV.s ""
    refexp_dataset_name := SV.s ""
    flickr_img_path := SV.s ""
    coco_path := SV.s ""
    dataset_config := "configs/flickr.json"
    distributed := false
    from_deepspeed := false
    do_caption := false
    no_detection := false
    test := false
    output_dir := ""
    ema := false
    resume := ""
    load := ""
    frozen_weights := none
    optimizer := "adam"
    use_colo_zero := false
    start_epoch := 0
    epochs := 40
    eval_skip := 1
    lr_drop := 35 }

/-- All configuration fields other than the four per-dataset override
fields, bundled so that "the loop changes nothing else" is one equation. -/
def Args.sansOverrides (a : Args) :=
  (a.combine_datasets, a.combine_datasets_val, a.eval, a.dataset_config, a.distributed,
   a.from_deepspeed, a.do_caption, a.no_detection, a.test, a.output_dir, a.ema, a.resume,
   a.load, a.frozen_weights, a.optimizer, a.use_colo_zero, a.start_epoch, a.epochs,
   a.eval_skip, a.lr_drop)

theorem get?_getD {l : List String} {n : Nat} (h : n < l.length) :
    l.get? n = some (l.getD n "") := by
  rw [List.get?_eq_getElem?, List.getD_eq_getElem?_getD]
  cases hx : l[n]? with
  | none => exact absurd (List.getElem?_eq_none_iff.mp hx) (by omega)
  | some v => rfl

/-- Evaluating the cycling loop when all four caches are lists and every
index is in range: it produces exactly the build calls `buildCallAt`, one
per index, and mutates nothing in the configuration beyond the four
override fields. -/
theorem cycleSteps_ok (names g r f c : List String)
    (hg : g.length = names.length) (hr : r.length = names.length)
    (hf : f.length = names.length) (hc : c.length = names.length) :
    ∀ (idxs : List Nat), (∀ ii ∈ idxs, ii < names.length) → ∀ a : Args,
    ∃ a2, cycleSteps names (SV.l g) (SV.l r) (SV.l f) (SV.l c) idxs a =
        .ok (idxs.map (buildCallAt names g r f c), a2) ∧
      a2.sansOverrides = a.sansOverrides := by
  intro idxs
  induction idxs with
  | nil => exact fun _ a => ⟨a, rfl, rfl⟩
  | cons ii rest ih =>
    intro hlt a
    have hii : ii < names.length := hlt ii (by simp)
    have h1 := get?_getD (l := names) (n := ii) hii
    have h2 := get?_getD (l := g) (n := ii) (by omega)
    have h3 := get?_getD (l := r) (n := ii) (by omega)
    have h4 := get?_getD (l := f) (n := ii) (by omega)
    have h5 := get?_getD (l := c) (n := ii) (by omega)
    obtain ⟨a2, hrec, hpres⟩ := ih (fun j hj => hlt j (by simp [hj]))
      { a with GT_type := SV.s (g.getD ii ""), refexp_dataset_name := SV.s (r.getD ii ""),
               flickr_img_path := SV.s (f.getD ii ""), coco_path := SV.s (c.getD ii "") }
    refine ⟨a2, ?_, hpres⟩
    simp only [cycleSteps, SV.index, h1, h2, h3, h4, h5, buildOne]
    simp only [bind, Except.bind, hrec, buildCallAt, List.map]

/-- C1: in multi-task cycling mode (list-valued overrides of length `k`
matching the number of combined training datasets) and outside
evaluation-only mode, the train stage builds exactly `k` datasets, the
`i`-th built while the shared configuration held element `i` of each
override list, and afterwards the shared configuration's override fields
hold the canonical joint values `GT_type == "merged_karpathy"` and
`refexp_dataset_name == "refcocog"`. -/
theorem trainStage_multitask_cycling (args : Args) (g r f c : List String) (k : Nat)
    (hg : args.GT_type = SV.l g) (hr : args.refexp_dataset_name = SV.l r)
    (hf : args.flickr_img_path = SV.l f) (hc : args.coco_path = SV.l c)
    (hk : args.combine_datasets.length = k)
    (hgl : g.length = k) (hrl : r.length = k) (hfl : f.length = k) (hcl : c.length = k)
    (he : args.eval = false) :
    ∃ calls a2, trainStage args = .ok (calls, a2) ∧
      calls.length = k ∧
      calls = (List.range k).map (buildCallAt args.combine_datasets g r f c) ∧
      a2.GT_type = SV.s "merged_karpathy" ∧
      a2.refexp_dataset_name = SV.s "refcocog" := by
  subst hk
  obtain ⟨a2, hrec, -⟩ := cycleSteps_ok args.combine_datasets g r f c
    (by omega) (by omega) (by omega) (by omega)
    (List.range args.combine_datasets.length)
    (fun ii hii => List.mem_range.mp hii) args
  refine ⟨(List.range args.combine_datasets.length).map
      (buildCallAt args.combine_datasets g r f c),
    { a2 with GT_type := SV.s "merged_karpathy",
              refexp_dataset_name := SV.s "refcocog",
              flickr_img_path := SV.s "data/Flickr30k/flickr30k_images_split/train",
              coco_path := SV.s "data/coco" },
    ?_, by simp, rfl, rfl, rfl⟩
  simp only [trainStage, he, Bool.false_eq_true, if_false, trainAssembly]
  rw [hg, hr, hf, hc]
  simp only [SV.isList, if_true, hrec]
  rfl

/-- The end-to-end multi-task scenario: two training datasets
`["flickr", "refcocog"]` with two-element override lists. -/
def cycArgs : Args :=
  { baseArgs with
    combine_datasets := ["flickr", "refcocog"]
    GT_type := SV.l ["merged", "merged_karpathy"]
    refexp_dataset_name := SV.l ["flickr", "refcocog"]
    flickr_img_path := SV.l ["data/Flickr30k/fa", "data/Flickr30k/fb"]
    coco_path := SV.l ["data/coco", "data/coco"] }

/-- Witness for C1 at the spec's end-to-end scenario. -/
theorem trainStage_multitask_cycling_witness :
    ∃ calls a2, trainStage cycArgs = .ok (calls, a2) ∧
      calls.length = 2 ∧
      calls = (List.range 2).map (buildCallAt cycArgs.combine_datasets
        ["merged", "merged_karpathy"] ["flickr", "refcocog"]
        ["data/Flickr30k/fa", "data/Flickr30k/fb"] ["data/coco", "data/coco"]) ∧
      a2.GT_type = SV.s "merged_karpathy" ∧
      a2.refexp_dataset_name = SV.s "refcocog" :=
  trainStage_multitask_cycling cycArgs ["merged", "merged_karpathy"] ["flickr", "refcocog"]
    ["data/Flickr30k/fa", "data/Flickr30k/fb"] ["data/coco", "data/coco"] 2
    rfl rfl rfl rfl rfl rfl rfl rfl rfl rfl

/-! ## Checkpoint loading: state dictionaries, resume, frozen weights -/

/-- A model/optimizer state dictionary: an ordered mapping from parameter
names to (abstract) tensor values. -/
abbrev StateDict := List (String × Int)

/-- The parameter names of a state dictionary, in order. -/
def sdKeys (sd : StateDict) : List String := sd.map Prod.fst

/-- `load_state_dict(sd)` with `strict=True` (the default, used at
`main.py` line 443): succeeds and replaces the current weights exactly
when the key structure matches, otherwise raises. -/
def load_state_dict_strict (cur new : StateDict) : Except PyErr StateDict :=
  if sdKeys cur = sdKeys new then .ok new
  else .error (.runtimeError "Error in loading state_dict")

/-- `load_state_dict(sd, strict=False)` (lines 415, 417, 431, 433): keys
present in both are overwritten; missing and unexpected keys are
tolerated. -/
def load_state_dict_nonstrict (cur new : StateDict) : StateDict :=
  cur.map (fun kv => (kv.1, (new.lookup kv.1).getD kv.2))

/-- A checkpoint record as stored on disk.  The outer `Option` of each
field models key presence in the Python dict; `model_ema`'s inner
`Option` models an explicit `None` value under a present key (line 414
tests both presence and non-`None`). -/
structure Checkpoint where
  model : Option StateDict
  model_ema : Option (Option StateDict)
  optimizer : Option Int
  epoch : Option Int
  deriving Repr, DecidableEq

/-- The orchestrator's mutable state touched by the three checkpoint load
paths: live weights, EMA shadow (present iff created), optimizer state
(abstract), and the start-epoch counter. -/
structure TrainState where
  model : StateDict
  model_ema : Option StateDict
  optState : Int
  start_epoch : Int
  deriving Repr, DecidableEq

/-- The resume path (`main.py` lines 438-452), given the already-fetched
checkpoint: strict full-model load of `checkpoint["model"]`; optimizer
state and start epoch restored only when not in evaluation-only mode and
the checkpoint carries both `optimizer` and `epoch` (then the start epoch
becomes checkpoint epoch + 1); if EMA is enabled, the shadow is reloaded
from the checkpoint's `model_ema` entry, or — after a warning — reset to a
copy of the just-loaded live weights when that key is absent. -/
def resumeStep (args : Args) (ckpt : Checkpoint) (st : TrainState) :
    Except PyErr TrainState := do
  let cm ← match ckpt.model with
    | some m => Except.ok m
    | none => Except.error PyErr.keyError
  let newModel ← load_state_dict_strict st.model cm
  let st1 : TrainState := { st with model := newModel }
  let st2 : TrainState :=
    match args.eval, ckpt.optimizer, ckpt.epoch with
    | false, some o, some e => { st1 with optState := o, start_epoch := e + 1 }
    | _, _, _ => st1
  if args.ema then
    match ckpt.model_ema with
    | none =>
      -- lines 448-450: warn and reset the shadow to the current model
      Except.ok { st2 with model_ema := some st2.model }
    | some none => Except.error PyErr.typeError
    | some (some m) =>
      match st2.model_ema with
      | none => Except.error PyErr.attributeError
      | some cur => do
        let newEma ← load_state_dict_strict cur m
        Except.ok { st2 with model_ema := some newEma }
  else Except.ok st2

/-- The frozen-weights load path (`main.py` lines 409-421).  The source
reads the checkpoint from `args.resume` (lines 410-413), not from
`args.frozen_weights`.  `fs` models the filesystem / URL fetch: the
checkpoint stored at each path, `none` when opening the path fails
(`torch.load("")` raises on an empty path).  The non-strict load into the
`model.detr` sub-module is represented as a non-strict load into the model
state, which suffices for the properties below.  Returns the path that was
actually read together with the new state. -/
def frozenWeightsStep (fs : String → Option Checkpoint) (args : Args) (st : TrainState) :
    Except PyErr (Option String × TrainState) :=
  match args.frozen_weights with
  | none => .ok (none, st)
  | some _ => do
    let ckpt ← match fs args.resume with
      | some ck => Except.ok ck
      | none => Except.error PyErr.fileNotFound
    let src ← match ckpt.model_ema with
      | some (some m) => Except.ok m
      | _ =>
        match ckpt.model with
        | some m => Except.ok m
        | none => Except.error PyErr.keyError
    let stA : TrainState := { st with model := load_state_dict_nonstrict st.model src }
    let stB : TrainState := if args.ema then { stA with model_ema := some stA.model } else stA
    .ok (some args.resume, stB)

/-- C2: resuming from a checkpoint carrying both an `optimizer` entry and
an `epoch` entry loads the full model weights strictly (a key mismatch
raises); outside evaluation-only mode the optimizer state is restored and
the start epoch becomes checkpoint epoch + 1; in evaluation-only mode
optimizer state and start epoch are left untouched. -/
theorem resumeStep_optimizer_epoch (args : Args) (ckpt : Checkpoint) (st : TrainState)
    (cm : StateDict) (o e : Int)
    (hm : ckpt.model = some cm) (ho : ckpt.optimizer = some o) (he : ckpt.epoch = some e) :
    (¬ sdKeys st.model = sdKeys cm → ∃ err, resumeStep args ckpt st = .error err) ∧
    (∀ st2, resumeStep args ckpt st = .ok st2 →
      st2.model = cm ∧
      (args.eval = false → st2.optState = o ∧ st2.start_epoch = e + 1) ∧
      (args.eval = true → st2.optState = st.optState ∧ st2.start_epoch = st.start_epoch)) := by
  constructor
  · intro hk
    exact ⟨.runtimeError "Error in loading state_dict",
      by simp [resumeStep, hm, load_state_dict_strict, hk, bind, Except.bind]⟩
  · intro st2 hok
    by_cases hk : sdKeys st.model = sdKeys cm
    · simp only [resumeStep, hm, ho, he, load_state_dict_strict, if_pos hk, bind,
        Except.bind] at hok
      cases hev : args.eval <;>
        cases hema : args.ema <;>
        rcases hce : ckpt.model_ema with _ | (_ | m) <;>
        rcases hsm : st.model_ema with _ | cur <;>
        simp_all [load_state_dict_strict] <;>
        (try split at hok) <;>
        (try subst hok) <;>
        (try rcases hok with ⟨rfl, rfl⟩) <;>
        simp_all
    · simp [resumeStep, hm, load_state_dict_strict, hk, bind, Except.bind] at hok

/-- Concrete witness data for the checkpoint theorems. -/
def sd0 : StateDict := [("w", 3), ("b", 4)]

/-- A checkpoint carrying every field. -/
def ckptFull : Checkpoint :=
  { model := some [("w", 7), ("b", 8)]
    model_ema := none
    optimizer := some 11
    epoch := some 4 }

/-- Pre-resume training state used by the witnesses. -/
def st0 : TrainState :=
  { model := sd0, model_ema := none, optState := 0, start_epoch := 0 }

/-- Witness for C2: resuming `st0` from `ckptFull` (evaluation-only mode
off) restores the optimizer state and sets the start epoch to 5. -/
theorem resumeStep_optimizer_epoch_witness :
    (¬ sdKeys st0.model = sdKeys [("w", 7), ("b", 8)] →
      ∃ err, resumeStep baseArgs ckptFull st0 = .error err) ∧
    (∀ st2, resumeStep baseArgs ckptFull st0 = .ok st2 →
      st2.model = [("w", 7), ("b", 8)] ∧
      (baseArgs.eval = false → st2.optState = 11 ∧ st2.start_epoch = 4 + 1) ∧
      (baseArgs.eval = true → st2.optState = st0.optState ∧
        st2.start_epoch = st0.start_epoch)) :=
  resumeStep_optimizer_epoch baseArgs ckptFull st0 [("w", 7), ("b", 8)] 11 4 rfl rfl rfl

/-- C5: with EMA enabled, resuming from a checkpoint that lacks a
`model_ema` entry does not raise — the shadow is re-initialized as a copy
of the just-loaded live weights; and when the checkpoint does carry EMA
weights (of matching key structure) they are loaded into the shadow. -/
theorem resumeStep_ema_handling (args : Args) (ckpt : Checkpoint) (st : TrainState)
    (cm : StateDict)
    (hema : args.ema = true) (hm : ckpt.model = some cm)
    (hk : sdKeys st.model = sdKeys cm) :
    (ckpt.model_ema = none →
      ∃ st2, resumeStep args ckpt st = .ok st2 ∧ st2.model = cm ∧
        st2.model_ema = some cm) ∧
    (∀ m cur, ckpt.model_ema = some (some m) → st.model_ema = some cur →
      sdKeys cur = sdKeys m →
      ∃ st2, resumeStep args ckpt st = .ok st2 ∧ st2.model = cm ∧
        st2.model_ema = some m) := by
  constructor
  · intro hce
    simp only [resumeStep, hm, hema, load_state_dict_strict, if_pos hk, hce, bind,
      Except.bind]
    cases hev : args.eval <;>
      rcases ho : ckpt.optimizer with _ | o <;>
      rcases he : ckpt.epoch with _ | e <;>
      simp
  · intro m cur hce hsm hkm
    simp only [resumeStep, hm, hema, load_state_dict_strict, if_pos hk, hce, bind,
      Except.bind]
    cases hev : args.eval <;>
      rcases ho : ckpt.optimizer with _ | o <;>
      rcases he : ckpt.epoch with _ | e <;>
      simp [hsm, if_pos hkm]

/-- A checkpoint with model weights but no `model_ema` key. -/
def ckptNoEma : Checkpoint :=
  { model := some [("w", 7), ("b", 8)]
    model_ema := none
    optimizer := none
    epoch := none }

/-- EMA-enabled configuration for the C5 witness. -/
def emaArgs : Args := { baseArgs with ema := true }

/-- Witness for C5: the missing-EMA resume succeeds and the shadow equals
the loaded live weights. -/
theorem resumeStep_ema_handling_witness :
    (ckptNoEma.model_ema = none →
      ∃ st2, resumeStep emaArgs ckptNoEma st0 = .ok st2 ∧
        st2.model = [("w", 7), ("b", 8)] ∧ st2.model_ema = some [("w", 7), ("b", 8)]) ∧
    (∀ m cur, ckptNoEma.model_ema = some (some m) → st0.model_ema = some cur →
      sdKeys cur = sdKeys m →
      ∃ st2, resumeStep emaArgs ckptNoEma st0 = .ok st2 ∧
        st2.model = [("w", 7), ("b", 8)] ∧ st2.model_ema = some m) :=
  resumeStep_ema_handling emaArgs ckptNoEma st0 [("w", 7), ("b", 8)] rfl rfl rfl

/-- C10: when the frozen-weights path is selected, the checkpoint read
comes from the resume source path — whatever path the frozen-weights field
names — and with an empty resume path the load fails instead of reading
the frozen-weights file. -/
theorem frozenWeights_reads_resume (fs : String → Option Checkpoint) (args : Args)
    (st : TrainState) (p : String) (hfw : args.frozen_weights = some p) :
    (∀ path st2, frozenWeightsStep fs args st = .ok (path, st2) →
      path = some args.resume) ∧
    (args.resume = "" → fs "" = none →
      frozenWeightsStep fs args st = .error PyErr.fileNotFound) := by
  constructor
  · intro path st2 hok
    simp only [frozenWeightsStep, hfw, bind, Except.bind] at hok
    rcases hfs : fs args.resume with _ | ck <;> simp [hfs] at hok
    rcases hce : ck.model_ema with _ | (_ | m) <;>
      rcases hcm : ck.model with _ | cmm <;>
      simp_all
  · intro hres hempty
    simp [frozenWeightsStep, hfw, hres, hempty, bind, Except.bind]

/-- A filesystem with a checkpoint at the frozen-weights path and nothing
anywhere else — in particular nothing at the empty path. -/
def fsFrozenOnly : String → Option Checkpoint :=
  fun p => if p = "frozen.pth" then some ckptFull else none

/-- Configuration selecting the frozen-weights path with an empty resume
path. -/
def frozenArgs : Args := { baseArgs with frozen_weights := some "frozen.pth" }

/-- Witness for C10: with frozen weights set and an empty resume path, the
load fails with a file-not-found error rather than reading
`frozen.pth`. -/
theorem frozenWeights_reads_resume_witness :
    (∀ path st2, frozenWeightsStep fsFrozenOnly frozenArgs st0 = .ok (path, st2) →
      path = some frozenArgs.resume) ∧
    (frozenArgs.resume = "" → fsFrozenOnly "" = none →
      frozenWeightsStep fsFrozenOnly frozenArgs st0 = .error PyErr.fileNotFound) :=
  frozenWeights_reads_resume fsFrozenOnly frozenArgs st0 "frozen.pth" rfl

/-! ## Evaluator dispatch -/

/-- The evaluators `build_evaluator_list` can construct, with the
configuration-derived arguments each constructor receives. -/
inductive Evaluator where
  | flickrCaption (subset : String) (mergeBoxes : Bool) (expId : String)
  | coco
  | refexp
  | flickr (subset : String) (mergeBoxes : Bool)
  deriving Repr, DecidableEq

/-- The constructor class of an evaluator, used to state ordering
properties independently of constructor arguments. -/
def evalKind : Evaluator → String
  | .flickrCaption _ _ _ => "caption"
  | .coco => "detection"
  | .refexp => "refexp"
  | .flickr _ _ => "flickrGrounding"

/-- Python's `x == "merged"` on a scalar-or-list configuration value:
true exactly for the scalar `"merged"`. -/
def SV.eqMerged : SV → Bool
  | .s v => v == "merged"
  | .l _ => false

/-- `build_evaluator_list` (`main.py` lines 454-481): captioning evaluator
when the dataset name contains `"flickr"` and captioning is on; an early
return when detection is disabled; otherwise a detection evaluator, then a
referring-expression evaluator when the name contains `"refexp"`, then a
flickr phrase-grounding evaluator when the name contains `"flickr"`. -/
def build_evaluator_list (args : Args) (dataset_name : String) (do_caption : Bool) :
    List Evaluator :=
  let evaluator_list : List Evaluator := []
  let evaluator_list :=
    if strIn "flickr" dataset_name && do_caption then
      evaluator_list ++ [Evaluator.flickrCaption (if args.test then "test" else "val")
        args.GT_type.eqMerged args.output_dir]
    else evaluator_list
  if args.no_detection then evaluator_list
  else
    let evaluator_list := evaluator_list ++ [Evaluator.coco]
    let evaluator_list :=
      if strIn "refexp" dataset_name then evaluator_list ++ [Evaluator.refexp]
      else evaluator_list
    if strIn "flickr" dataset_name then
      evaluator_list ++ [Evaluator.flickr (if args.test then "test" else "val")
        args.GT_type.eqMerged]
    else evaluator_list

theorem strIn_flickr_flickr_test : strIn "flickr" "flickr_test" = true := by decide

theorem strIn_refexp_flickr_test : strIn "refexp" "flickr_test" = false := by decide

/-- C6: dispatching for dataset `"flickr_test"` with captioning enabled
returns exactly the captioning evaluator when detection is disabled, and
exactly captioning, detection, flickr phrase-grounding — in that order —
when detection is enabled. -/
theorem build_evaluator_list_flickr_test (args : Args) :
    (args.no_detection = true →
      (build_evaluator_list args "flickr_test" true).map evalKind = ["caption"]) ∧
    (args.no_detection = false →
      (build_evaluator_list args "flickr_test" true).map evalKind =
        ["caption", "detection", "flickrGrounding"]) := by
  constructor <;> intro hnd <;>
    simp [build_evaluator_list, hnd, strIn_flickr_flickr_test, strIn_refexp_flickr_test,
      evalKind]

/-- Witness for C6 at the default configuration (detection enabled) and at
the detection-disabled configuration. -/
theorem build_evaluator_list_flickr_test_witness :
    ((baseArgs.no_detection = true →
      (build_evaluator_list baseArgs "flickr_test" true).map evalKind = ["caption"]) ∧
    (baseArgs.no_detection = false →
      (build_evaluator_list baseArgs "flickr_test" true).map evalKind =
        ["caption", "detection", "flickrGrounding"])) ∧
    (({ baseArgs with no_detection := true } : Args).no_detection = true →
      (build_evaluator_list { baseArgs with no_detection := true }
        "flickr_test" true).map evalKind = ["caption"]) :=
  ⟨build_evaluator_list_flickr_test baseArgs,
    (build_evaluator_list_flickr_test { baseArgs with no_detection := true }).1⟩

/-! ## Best-metric selection (evaluation epochs) -/

/-- A Python float that is either a rational value or NaN (`none`), the
latter as produced by `np.mean([])`. -/
abbrev PyFloat := Option Rat

/-- `np.mean` of a list of values: NaN on the empty list. -/
def npMean (vs : List Rat) : PyFloat :=
  match vs with
  | [] => none
  | _ => some (vs.sum / vs.length)

/-- Python `>` on possibly-NaN floats: every comparison against NaN is
false. -/
def pyGt : PyFloat → PyFloat → Bool
  | none, _ => false
  | some _, none => false
  | some a, some b => decide (b < a)

/-- The test-statistics mapping accumulated for one epoch: statistic key
to its value list. -/
abbrev TestStats := List (String × List Rat)

/-- The comprehension `[v[1] for k, v in test_stats.items() if
"coco_eval_bbox" in k]` (`main.py` line 613): the second element of every
matching statistic, raising `IndexError` when a matching value list is too
short. -/
def collectBbox : TestStats → Except PyErr (List Rat)
  | [] => .ok []
  | (k, v) :: rest =>
    if strIn "coco_eval_bbox" k then
      match v.get? 1 with
      | some x => do
        let r ← collectBbox rest
        .ok (x :: r)
      | none => .error .indexError
    else collectBbox rest

/-- The best-metric selection step (`main.py` lines 609-630), executed on
evaluation epochs.  In captioning mode the source reads `metric_stats`, a
name never bound in `main`, raising `NameError`.  Otherwise the metric is
the mean of the second element of every `"coco_eval_bbox"` statistic, and
the best metric is updated — and a best-checkpoint written — exactly when
`args.output_dir` is truthy (non-empty) and the metric strictly exceeds
the recorded best.  Returns the new best metric and whether a
best-checkpoint write occurred. -/
def bestSelect (args : Args) (test_stats : TestStats) (best_metric : PyFloat) :
    Except PyErr (PyFloat × Bool) :=
  if args.do_caption then .error .nameError
  else do
    let vals ← collectBbox test_stats
    let metric := npMean vals
    if args.output_dir != "" && pyGt metric best_metric then
      .ok (metric, true)
    else
      .ok (best_metric, false)

/-- Counterexample input for C4: one bbox statistic whose selection metric
is 1, strictly above the running best 0, but with no output directory
configured. -/
def cexStats : TestStats := [("refcoco_coco_eval_bbox", [0, 1])]

/-- C4 counterexample: with no output directory, the computed selection
metric strictly exceeds the recorded best, yet no best-checkpoint write
occurs and the best metric stays unchanged — refuting "a best-checkpoint
write occurs if and only if the metric strictly exceeds the previous
best". -/
theorem bestSelect_write_iff_refuted :
    collectBbox cexStats = .ok [1] ∧
    pyGt (npMean [1]) (some 0) = true ∧
    bestSelect baseArgs cexStats (some 0) = .ok (some 0, false) :=
  ⟨rfl, by norm_num [npMean, pyGt], rfl⟩

/-- C4 (amended): on evaluation epochs outside captioning mode, the
recorded best metric is non-decreasing, and a best-checkpoint write occurs
if and only if the output directory is configured (non-empty) and the
newly computed selection metric strictly exceeds the previously recorded
best. -/
theorem bestSelect_monotone_write (args : Args) (ts : TestStats) (b : PyFloat)
    (vals : List Rat) (hc : args.do_caption = false)
    (hv : collectBbox ts = .ok vals) :
    ∃ newbest wrote, bestSelect args ts b = .ok (newbest, wrote) ∧
      (wrote = true ↔ (args.output_dir ≠ "" ∧ pyGt (npMean vals) b = true)) ∧
      (∀ q, b = some q → ∃ qq, newbest = some qq ∧ q ≤ qq) := by
  simp only [bestSelect, hc, Bool.false_eq_true, if_false, hv, bind, Except.bind]
  by_cases hcond : (args.output_dir != "" && pyGt (npMean vals) b) = true
  · refine ⟨npMean vals, true, by rw [if_pos hcond], ?_, ?_⟩
    · simp only [Bool.and_eq_true, bne_iff_ne] at hcond
      simp [hcond]
    · intro q hb
      subst hb
      rcases hm : npMean vals with _ | m
      · rw [Bool.and_eq_true, hm] at hcond
        simp [pyGt] at hcond
      · refine ⟨m, rfl, le_of_lt ?_⟩
        rw [Bool.and_eq_true, hm] at hcond
        simpa [pyGt] using hcond.2
  · refine ⟨b, false, by rw [if_neg hcond], ?_, fun q hb => ⟨q, hb, le_refl q⟩⟩
    refine ⟨fun h => by simp at h, fun ⟨hne, hgt⟩ => absurd ?_ hcond⟩
    simp [bne_iff_ne, hne, hgt]

/-- Witness for C4 (amended): with an output directory configured and a
metric of 1 above the best 0, a best-checkpoint write occurs and the best
becomes 1. -/
theorem bestSelect_monotone_write_witness :
    ∃ newbest wrote,
      bestSelect { baseArgs with output_dir := "exp" } cexStats (some 0) =
        .ok (newbest, wrote) ∧
      (wrote = true ↔ (({ baseArgs with output_dir := "exp" } : Args).output_dir ≠ "" ∧
        pyGt (npMean [1]) (some 0) = true)) ∧
      (∀ q, (some 0 : PyFloat) = some q → ∃ qq, newbest = some qq ∧ q ≤ qq) :=
  bestSelect_monotone_write { baseArgs with output_dir := "exp" } cexStats (some 0) [1]
    rfl rfl

/-- C8: on an evaluation epoch outside captioning mode where no statistic
key contains `"coco_eval_bbox"`, the selection yields NaN, which is
treated as no improvement — the best metric is unchanged, no
best-checkpoint is written, and no error is raised. -/
theorem bestSelect_missing_keys (args : Args) (ts : TestStats) (b : PyFloat)
    (hc : args.do_caption = false)
    (hk : ∀ kv ∈ ts, strIn "coco_eval_bbox" kv.1 = false) :
    bestSelect args ts b = .ok (b, false) := by
  have hcol : collectBbox ts = .ok [] := by
    induction ts with
    | nil => rfl
    | cons kv rest ih =>
      have hf := hk kv (by simp)
      rcases kv with ⟨k, v⟩
      simp only [collectBbox, hf, Bool.false_eq_true, if_false]
      exact ih (fun x hx => hk x (by simp [hx]))
  simp [bestSelect, hc, hcol, npMean, pyGt, bind, Except.bind]

/-- Witness for C8: a statistics mapping with no bbox key leaves the best
metric and write decision untouched. -/
theorem bestSelect_missing_keys_witness :
    bestSelect baseArgs [("flickr_test_loss", [5])] (some 2) = .ok (some 2, false) :=
  bestSelect_missing_keys baseArgs [("flickr_test_loss", [5])] (some 2) rfl (by decide)

/-! ## The per-epoch loop body and the log append -/

/-- Observable actions of one iteration of the epoch loop. -/
inductive EpochEvent where
  | setEpoch (e : Int)
  | trainPass (e : Int)
  | saveCheckpoint (name : String)
  | evalPass (dataset : String)
  | logAppend
  deriving Repr, DecidableEq

/-- Which local names of `main` relevant to the loop body are bound, the
embedding of Python's scoping: `deepspeed_engine` is bound only by the
`args.from_deepspeed` branch at lines 524-531; `train_stats` only by the
`args.distributed` branch at lines 540-555; `loss` (read at line 557) is
never assigned anywhere in `main`. -/
structure PyEnv where
  deepspeed_engine_bound : Bool
  train_stats_bound : Bool
  loss_bound : Bool
  deriving Repr, DecidableEq

/-- The environment in force when the epoch loop is entered (`main.py`
lines 512-536): `colossalai_engine` is always assigned (line 513),
`deepspeed_engine` only under `args.from_deepspeed`, and neither
`train_stats` nor `loss` is bound. -/
def mainLoopEnv (args : Args) : PyEnv :=
  { deepspeed_engine_bound := args.from_deepspeed
    train_stats_bound := false
    loss_bound := false }

/-- One iteration of the epoch loop (`main.py` lines 538-607): the
training pass runs only under `args.distributed` (lines 540-555) and its
call mentions `deepspeed_engine` (line 554, `NameError` when unbound);
line 557 formats the unbound name `loss` (`NameError`); then checkpoint
writes, the evaluation pass, and the log-record append, which reads
`train_stats` (line 599, `NameError` when unbound).  Returns the events
that happened before the iteration ended, plus the exception that ended
it, if any. -/
def epochBody (args : Args) (env : PyEnv) (epoch : Int) :
    List EpochEvent × Option PyErr := Id.run do
  let mut ev : List EpochEvent := []
  let mut env := env
  if args.distributed then
    ev := ev ++ [.setEpoch epoch]
    if !env.deepspeed_engine_bound then
      return (ev, some PyErr.nameError)
    ev := ev ++ [.trainPass epoch]
    env := { env with train_stats_bound := true }
  if !env.loss_bound then
    return (ev, some PyErr.nameError)
  if args.output_dir != "" then
    ev := ev ++ [.saveCheckpoint "checkpoint.pth"]
    if (epoch + 1) % args.lr_drop == 0 || (epoch + 1) % 2 == 0 then
      ev := ev ++ [.saveCheckpoint "checkpoint_epoch.pth"]
  if epoch % args.eval_skip == 0 then
    ev := ev ++ args.combine_datasets_val.map EpochEvent.evalPass
  if !env.train_stats_bound then
    return (ev, some PyErr.nameError)
  ev := ev ++ [.logAppend]
  return (ev, none)

/-- Non-distributed configuration entering the epoch loop. -/
def loopArgsA : Args := { baseArgs with epochs := 1 }

/-- Distributed, deepspeed-launched configuration entering the epoch
loop. -/
def loopArgsB : Args := { baseArgs with distributed := true, from_deepspeed := true }

/-- C3 (code bug): in a non-distributed run, the first epoch iteration
performs no training pass at all and dies with a `NameError` (the unbound
`loss` at line 557); even in a distributed deepspeed run, where the
training pass does execute, the iteration dies on the same unbound name
before the train statistics are ever merged into a log record — so no
epoch appends its statistics to the log. -/
theorem epochBody_train_skipped_and_crash :
    epochBody loopArgsA (mainLoopEnv loopArgsA) 0 = ([], some PyErr.nameError) ∧
    epochBody loopArgsB (mainLoopEnv loopArgsB) 0 =
      ([.setEpoch 0, .trainPass 0], some PyErr.nameError) ∧
    EpochEvent.trainPass 0 ∉ (epochBody loopArgsA (mainLoopEnv loopArgsA) 0).1 ∧
    EpochEvent.logAppend ∉ (epochBody loopArgsB (mainLoopEnv loopArgsB) 0).1 := by
  refine ⟨rfl, rfl, ?_, ?_⟩ <;> decide

/-- A write to the append-only persisted log. -/
inductive WriteOp where
  | appendLine (path : String) (record : List (String × Rat))
  deriving Repr, DecidableEq

/-- The per-epoch log record (`main.py` lines 598-603): train and test
statistics under `train_`/`test_` prefixed keys, plus the epoch index and
the parameter count. -/
def logStats (train_stats test_stats : List (String × Rat)) (epoch n_parameters : Rat) :
    List (String × Rat) :=
  (train_stats.map (fun kv => ("train_" ++ kv.1, kv.2))) ++
  (test_stats.map (fun kv => ("test_" ++ kv.1, kv.2))) ++
  [("epoch", epoch), ("n_parameters", n_parameters)]

set_option linter.unusedVariables false in
/-- The log-append step (`main.py` lines 605-607).  The leader-only guard
(`if args.output_dir and dist.is_main_process():`) is commented out at
line 605, so the write to `output_dir / "log.txt"` happens on every
process, whatever `is_main` says. -/
def logWrite (args : Args) (is_main : Bool) (record : List (String × Rat)) :
    List WriteOp :=
  [WriteOp.appendLine (args.output_dir ++ "/log.txt") record]

/-- C7 (code bug): a non-leader process performs exactly the same log
append as the leader — the persisted log is appended to by every process,
not only by the leader. -/
theorem logWrite_every_process :
    logWrite { baseArgs with output_dir := "exp" } false
        (logStats [("loss", 5)] [] 0 7) =
      [WriteOp.appendLine "exp/log.txt"
        [("train_loss", 5), ("epoch", 0), ("n_parameters", 7)]] ∧
    logWrite { baseArgs with output_dir := "exp" } false
        (logStats [("loss", 5)] [] 0 7) =
      logWrite { baseArgs with output_dir := "exp" } true
        (logStats [("loss", 5)] [] 0 7) :=
  ⟨rfl, rfl⟩

/-! ## Startup ordering -/

/-- Observable startup actions of `main`, in program order. -/
inductive InitEvent where
  | buildModel
  | buildOptimizer
  | buildTrainDataset (c : BuildCall)
  | buildValDataset (c : BuildCall)
  | loadCheckpoint (path : String)
  | evalOnlyRun
  | enterEpochLoop
  deriving Repr, DecidableEq

/-- Optimizer selection (`main.py` lines 326-337): under `use_colo_zero`
an assertion demands the `adam` choice; otherwise `sgd`, `adam` and
`adamw` are accepted and anything else raises. -/
def optimizerCheck (args : Args) : Option PyErr :=
  if args.use_colo_zero then
    if args.optimizer = "adam" then none
    else some .assertionError
  else if args.optimizer = "sgd" ∨ args.optimizer = "adam" ∨ args.optimizer = "adamw" then
    none
  else some (.runtimeError ("Unsupported optimizer " ++ args.optimizer))

/-- The validation-side multitask reset (`main.py` lines 386-390): when
`refexp_dataset_name` is still list-valued, assert a multitask
configuration file and reset the override fields to the canonical joint
values. -/
def valReset (a : Args) : Except PyErr Args :=
  if a.refexp_dataset_name.isList then
    if strIn "multitask" a.dataset_config then
      .ok { a with GT_type := SV.s "merged_karpathy",
                   refexp_dataset_name := SV.s "refcocog",
                   flickr_img_path := SV.s "data/Flickr30k/flickr30k_images_split/train",
                   coco_path := SV.s "data/coco" }
    else .error .assertionError
  else .ok a

/-- `torch.load` / URL fetch of a checkpoint path. -/
def fetch (fs : String → Option Checkpoint) (p : String) : Except PyErr Checkpoint :=
  match fs p with
  | some ck => .ok ck
  | none => .error .fileNotFound

/-- The three checkpoint-ingestion paths (`main.py` lines 409-452) at
key-presence granularity, returning the paths read in order: the
frozen-weights path fetches `args.resume` and reads `model_ema` when
present and non-`None`, else `model`; the fresh-load path fetches
`args.load` and reads `model_ema` whenever the key is present; the resume
path fetches `args.resume` and requires `model`. -/
def loadPhase (fs : String → Option Checkpoint) (a : Args) : Except PyErr (List String) := do
  let l1 : List String ←
    if a.frozen_weights.isSome then do
      let ck ← fetch fs a.resume
      match ck.model_ema with
      | some (some _) => pure [a.resume]
      | _ =>
        match ck.model with
        | some _ => pure [a.resume]
        | none => Except.error PyErr.keyError
    else pure []
  let l2 : List String ←
    if a.load ≠ "" then do
      let ck ← fetch fs a.load
      match ck.model_ema with
      | some (some _) => pure [a.load]
      | some none => Except.error PyErr.typeError
      | none =>
        match ck.model with
        | some _ => pure [a.load]
        | none => Except.error PyErr.keyError
    else pure []
  let l3 : List String ←
    if a.resume ≠ "" then do
      let ck ← fetch fs a.resume
      match ck.model with
      | some _ => pure [a.resume]
      | none => Except.error PyErr.keyError
    else pure []
  pure (l1 ++ l2 ++ l3)

/-- The startup sequence of `main` (`main.py` lines 274-536) as an ordered
event trace with the terminating exception, if any: model construction
(lines 274-304), optimizer construction (lines 307-337), the
training-dataset guard (line 340), training-dataset assembly (lines
343-378), the validation-dataset guard (line 381), the validation
multitask reset (lines 386-390), one validation build per name (lines
392-407), the checkpoint-ingestion phase (lines 409-452), and finally
either the evaluation-only run (line 485) or entry into the epoch loop
(line 538). -/
def mainInit (fs : String → Option Checkpoint) (args0 : Args) :
    List InitEvent × Option PyErr :=
  let ev0 := [InitEvent.buildModel]
  match optimizerCheck args0 with
  | some e => (ev0, some e)
  | none =>
    let ev1 := ev0 ++ [InitEvent.buildOptimizer]
    if args0.combine_datasets = [] ∧ args0.eval = false then
      (ev1, some (PyErr.runtimeError "Please provide at least one training dataset"))
    else
      match trainStage args0 with
      | .error e => (ev1, some e)
      | .ok (calls, a1) =>
        let ev2 := ev1 ++ calls.map InitEvent.buildTrainDataset
        if a1.combine_datasets_val = [] then
          (ev2, some (PyErr.runtimeError "Please provide at leas one validation dataset"))
        else
          match valReset a1 with
          | .error e => (ev2, some e)
          | .ok a2 =>
            let ev3 := ev2 ++ a2.combine_datasets_val.map
              (fun n => InitEvent.buildValDataset (buildOne a2 n))
            match loadPhase fs a2 with
            | .error e => (ev3, some e)
            | .ok loads =>
              let ev4 := ev3 ++ loads.map InitEvent.loadCheckpoint
              if a2.eval then (ev4 ++ [InitEvent.evalOnlyRun], none)
              else (ev4 ++ [InitEvent.enterEpochLoop], none)

/-- The process exit status under Python semantics: an uncaught exception
terminates the interpreter with a non-zero status, normal completion with
zero. -/
def mainExitCode (fs : String → Option Checkpoint) (args : Args) : Nat :=
  match (mainInit fs args).2 with
  | some _ => 1
  | none => 0

/-- Whatever the cycling loop returns successfully, it has changed nothing
in the configuration beyond the four override fields. -/
theorem cycleSteps_sansOverrides (names : List String) (g r f c : SV) :
    ∀ (idxs : List Nat) (a : Args) (calls : List BuildCall) (a2 : Args),
      cycleSteps names g r f c idxs a = .ok (calls, a2) →
      a2.sansOverrides = a.sansOverrides := by
  intro idxs
  induction idxs with
  | nil =>
    intro a calls a2 h
    cases h
    rfl
  | cons ii rest ih =>
    intro a calls a2 h
    simp only [cycleSteps, bind, Except.bind] at h
    rcases hn : names.get? ii with _ | name <;> simp only [hn] at h
    · cases h
    rcases hg : g.index ii with _ | vg <;> simp only [hg] at h
    · cases h
    rcases hr : r.index ii with _ | vr <;> simp only [hr] at h
    · cases h
    rcases hf : f.index ii with _ | vf <;> simp only [hf] at h
    · cases h
    rcases hc : c.index ii with _ | vc <;> simp only [hc] at h
    · cases h
    rcases hrec : cycleSteps names g r f c rest
        { a with GT_type := SV.s vg, refexp_dataset_name := SV.s vr,
                 flickr_img_path := SV.s vf, coco_path := SV.s vc } with e | ⟨cs, a3⟩ <;>
      simp only [hrec] at h
    · cases h
    · obtain ⟨-, h2⟩ := Prod.mk.injEq .. ▸ Except.ok.inj h
      subst h2
      exact ih { a with GT_type := SV.s vg, refexp_dataset_name := SV.s vr,
                        flickr_img_path := SV.s vf, coco_path := SV.s vc } cs a3 hrec

/-- The train stage never changes the validation-dataset list. -/
theorem trainStage_combine_val (args : Args) (calls : List BuildCall) (a1 : Args)
    (h : trainStage args = .ok (calls, a1)) :
    a1.combine_datasets_val = args.combine_datasets_val := by
  unfold trainStage at h
  split at h
  · cases h; rfl
  · unfold trainAssembly at h
    split at h
    · simp only [bind, Except.bind] at h
      rcases hrec : cycleSteps args.combine_datasets args.GT_type args.refexp_dataset_name
          args.flickr_img_path args.coco_path
          (List.range args.combine_datasets.length) args with e | ⟨cs, a3⟩ <;>
        simp only [hrec] at h
      · cases h
      · obtain ⟨-, h2⟩ := Prod.mk.injEq .. ▸ Except.ok.inj h
        have hp := cycleSteps_sansOverrides _ _ _ _ _ _ _ _ _ hrec
        have hv : a3.combine_datasets_val = args.combine_datasets_val :=
          congrArg (fun t => t.2.1) hp
        rw [← h2]
        exact hv
    · cases h; rfl

/-- An empty filesystem: no checkpoint exists at any path. -/
def fsEmpty : String → Option Checkpoint := fun _ => none

/-- Configuration with an empty training-dataset list and evaluation-only
mode off. -/
def argsNoTrain : Args := { baseArgs with combine_datasets := [] }

/-- C9 counterexample: with an empty training-dataset list and
evaluation-only mode off, the fatal configuration error is raised only
after the model and the optimizer have been constructed — the trace
preceding the error already contains the model-construction event,
refuting "surfaced before any expensive resource allocation". -/
theorem mainInit_error_after_model_build :
    mainInit fsEmpty argsNoTrain =
      ([.buildModel, .buildOptimizer],
        some (PyErr.runtimeError "Please provide at least one training dataset")) ∧
    InitEvent.buildModel ∈ (mainInit fsEmpty argsNoTrain).1 := by
  refine ⟨rfl, ?_⟩
  rw [mainInit]
  decide

/-- C9 (amended): an empty training-dataset list outside evaluation-only
mode, or an empty validation-dataset list, raises a fatal configuration
error whose message names the violated precondition, and the process exits
non-zero without ever entering the epoch loop — but the error is raised
after model and optimizer construction, not before expensive resource
allocation. -/
theorem mainInit_empty_datasets (fs : String → Option Checkpoint) (args : Args)
    (hok : optimizerCheck args = none) :
    (args.combine_datasets = [] → args.eval = false →
      mainInit fs args = ([.buildModel, .buildOptimizer],
        some (PyErr.runtimeError "Please provide at least one training dataset")) ∧
      InitEvent.enterEpochLoop ∉ (mainInit fs args).1 ∧
      mainExitCode fs args = 1) ∧
    (∀ calls a1, trainStage args = .ok (calls, a1) →
      ¬(args.combine_datasets = [] ∧ args.eval = false) →
      args.combine_datasets_val = [] →
      mainInit fs args =
        ([.buildModel, .buildOptimizer] ++ calls.map InitEvent.buildTrainDataset,
          some (PyErr.runtimeError "Please provide at leas one validation dataset")) ∧
      InitEvent.enterEpochLoop ∉ (mainInit fs args).1 ∧
      mainExitCode fs args = 1) := by
  constructor
  · intro h1 h2
    have hmain : mainInit fs args = ([.buildModel, .buildOptimizer],
        some (PyErr.runtimeError "Please provide at least one training dataset")) := by
      rw [mainInit, hok]
      simp [h1, h2]
    refine ⟨hmain, ?_, ?_⟩
    · rw [hmain]; decide
    · rw [mainExitCode, hmain]
  · intro calls a1 ht hne hval
    have hval1 : a1.combine_datasets_val = [] :=
      (trainStage_combine_val args calls a1 ht).trans hval
    have hmain : mainInit fs args =
        ([.buildModel, .buildOptimizer] ++ calls.map InitEvent.buildTrainDataset,
          some (PyErr.runtimeError "Please provide at leas one validation dataset")) := by
      rw [mainInit, hok]
      rw [if_neg hne, ht]
      simp [hval1]
    refine ⟨hmain, ?_, ?_⟩
    · rw [hmain]
      simp
    · rw [mainExitCode, hmain]

/-- Configuration with an empty validation-dataset list. -/
def argsNoVal : Args := { baseArgs with combine_datasets_val := [] }

/-- Witness for C9 (amended), at both concrete failing configurations. -/
theorem mainInit_empty_datasets_witness :
    (mainInit fsEmpty argsNoTrain = ([.buildModel, .buildOptimizer],
        some (PyErr.runtimeError "Please provide at least one training dataset")) ∧
      InitEvent.enterEpochLoop ∉ (mainInit fsEmpty argsNoTrain).1 ∧
      mainExitCode fsEmpty argsNoTrain = 1) ∧
    (mainInit fsEmpty argsNoVal =
        ([.buildModel, .buildOptimizer] ++
          [BuildCall.mk "flickr" (SV.s "") (SV.s "") (SV.s "") (SV.s "")].map
            InitEvent.buildTrainDataset,
          some (PyErr.runtimeError "Please provide at leas one validation dataset")) ∧
      InitEvent.enterEpochLoop ∉ (mainInit fsEmpty argsNoVal).1 ∧
      mainExitCode fsEmpty argsNoVal = 1) :=
  ⟨(mainInit_empty_datasets fsEmpty argsNoTrain rfl).1 rfl rfl,
    (mainInit_empty_datasets fsEmpty argsNoVal rfl).2
      [BuildCall.mk "flickr" (SV.s "") (SV.s "") (SV.s "") (SV.s "")] argsNoVal
      rfl (by simp [argsNoVal, baseArgs]) rfl⟩

end UniTAB
